import Mathlib

/-
  Verification development for the deploy-rs deployment orchestrator.

  Shallow embedding of the relevant parts of `src/cli.rs` and
  `src/deploy.rs`:
  * the remote command builder (`build_activate_command`),
  * the target resolver (the (node, profile) selector match in `run_deploy`),
  * the sudo wrapping and sops secret resolution (`run_deploy`, per work item),
  * the batch controller loop of `run_deploy`,
  * the activate/wait/confirm orchestration of `deploy_profile`.

  External effects (process spawns, exit statuses, file existence, the sops
  subprocess, the interactive prompt) are passed in as explicit oracles, and
  the machine-visible actions (which children were spawned, which revokes were
  issued) are returned as traces.
-/

namespace DeployRs

/-! ## Data model (from `src/data.rs` usage sites and `src/deploy.rs`) -/

/-- Source type `ProfileInfo`: either a profile path, or a
(profile user, profile name) pair. -/
inductive ProfileInfo where
  | profilePath (profile_path : String)
  | profileUserAndName (profile_user : String) (profile_name : String)
deriving DecidableEq, Repr

/-- The merged (effective) per-item settings consulted by `run_deploy` and
`deploy_profile`. Maps of the source become `Option` fields; `u16` timeouts
become `Nat`. -/
structure MergedSettings where
  sudo_command : Option String
  interactive_sudo : Option Bool
  sudo_file : Option String
  sudo_secret : Option String
  auto_rollback : Option Bool
  magic_rollback : Option Bool
  temp_path : Option String
  confirm_timeout : Option Nat
  activation_timeout : Option Nat
  ssh_opts : List String
deriving DecidableEq, Repr

/-- Source type `DeployDefs`: the derived per-item definitions, mutated
once in `run_deploy` to wrap sudo and inject the sudo password. -/
structure DeployDefs where
  ssh_user : String
  profile_user : String
  sudo_command : Option String
  sudo_password : Option String
deriving DecidableEq, Repr

/-- The slice of `DeployData` that the batch controller loop consults:
the node name (for error tagging) and the merged settings
(for `auto_rollback`). -/
structure DeployData where
  node_name : String
  profile_name : String
  merged_settings : MergedSettings
deriving DecidableEq, Repr

/-! ## Remote command builder (`src/deploy.rs`, `build_activate_command`) -/

/-- Source type `ActivateCommandData`. `temp_path` is a `Path` displayed
into the command; we carry it as the displayed string. -/
structure ActivateCommandData where
  sudo_command : Option String
  profile_info : ProfileInfo
  closure : String
  auto_rollback : Bool
  temp_path : String
  confirm_timeout : Nat
  magic_rollback : Bool
  debug_logs : Bool
  log_dir : Option String
  dry_activate : Bool
  boot : Bool

/-- The profile-selector fragment shared by the activate and revoke builders
(the `match data.profile_info` expression of the source). -/
def profile_info_flags : ProfileInfo → String
  | .profilePath p => "--profile-path '" ++ p ++ "'"
  | .profileUserAndName u n => "--profile-user " ++ u ++ " --profile-name " ++ n

/-- Source function `build_activate_command`, as a chain of string
extensions in the same order as the source's `format!` calls. -/
def build_activate_command (data : ActivateCommandData) : String :=
  let c0 := data.closure ++ "/activate-rs"
  let c1 := if data.debug_logs then c0 ++ " --debug-logs" else c0
  let c2 := match data.log_dir with
    | some d => c1 ++ " --log-dir " ++ d
    | none => c1
  let c3 := c2 ++ " activate '" ++ data.closure ++ "' "
    ++ profile_info_flags data.profile_info
    ++ " --temp-path '" ++ data.temp_path ++ "'"
  let c4 := c3 ++ " --confirm-timeout " ++ toString data.confirm_timeout
  let c5 := if data.magic_rollback then c4 ++ " --magic-rollback" else c4
  let c6 := if data.auto_rollback then c5 ++ " --auto-rollback" else c5
  let c7 := if data.dry_activate then c6 ++ " --dry-activate" else c6
  let c8 := if data.boot then c7 ++ " --boot" else c7
  match data.sudo_command with
  | some sudo_cmd => sudo_cmd ++ " " ++ c8
  | none => c8

/-! ## Target resolver (`src/cli.rs`, `run_deploy`, the selector match) -/

/-- A profile as the resolver sees it; only the closure path matters here. -/
structure Profile where
  path : String
deriving DecidableEq, Repr

/-- Node settings: hostname, profile ordering and the profile map
(carried as an association list in declaration order). -/
structure NodeSettings where
  hostname : String
  profiles_order : List String
  profiles : List (String × Profile)
deriving DecidableEq, Repr

/-- A node of the deployment descriptor. -/
structure NodeT where
  node_settings : NodeSettings
deriving DecidableEq, Repr

/-- The deployment descriptor's node map (association list). -/
structure DataT where
  nodes : List (String × NodeT)
deriving DecidableEq, Repr

/-- The error kinds of `RunDeployError` exercised by the claims. The source
attaches io/ssh causes to some variants; those causes do not influence
control flow and are dropped here. -/
inductive SopsError where
  | SopsFailedDecryption (path : String)
  | SopsFileNotFound (msg : String)
  | SopsCannotConvert
  | SerdeDeserialize
  | SerdeUnexpectedType (msg : String)
  | SopsKeyNotFound (msg : String)
deriving DecidableEq, Repr

inductive RunDeployError where
  | DeployProfile (node : String)
  | NodeNotFound (node : String)
  | ProfileNotFound (profile : String)
  | ProfileWithoutNode
  | RevokeProfile (node : String)
  | Rollback (node : String)
  | Sops (e : SopsError)
deriving DecidableEq, Repr

/-- A resolved work item `(node name, node, profile name, profile)`. -/
structure WorkItem where
  node_name : String
  node : NodeT
  profile_name : String
  profile : Profile
deriving DecidableEq, Repr

/-- The inner loop of the `(Some node, None)` arm: walk
`profiles_order ++ profiles.keys`, look each name up (failing with
`ProfileNotFound`), and push it unless a profile of that name was already
pushed. -/
def profiles_list_loop (profiles : List (String × Profile)) :
    List String → List (String × Profile) →
    Except RunDeployError (List (String × Profile))
  | [], acc => .ok acc
  | name :: rest, acc =>
    match profiles.lookup name with
    | none => .error (.ProfileNotFound name)
    | some profile =>
      if acc.any (fun p => p.1 == name) then
        profiles_list_loop profiles rest acc
      else
        profiles_list_loop profiles rest (acc ++ [(name, profile)])

/-- All profiles of one node, in `profiles_order` then key order,
deduplicated first-wins (the `profiles_list` construction of the source). -/
def resolve_node_profiles (node : NodeT) :
    Except RunDeployError (List (String × Profile)) :=
  profiles_list_loop node.node_settings.profiles
    (node.node_settings.profiles_order ++ node.node_settings.profiles.map (fun p => p.1))
    []

/-- Resolution of the `(None, None)` arm: every node in descriptor order. -/
def resolve_all_nodes : List (String × NodeT) → Except RunDeployError (List WorkItem)
  | [] => .ok []
  | (node_name, node) :: rest =>
    match resolve_node_profiles node with
    | .error e => .error e
    | .ok profiles_list =>
      match resolve_all_nodes rest with
      | .error e => .error e
      | .ok l =>
        .ok ((profiles_list.map (fun x => WorkItem.mk node_name node x.1 x.2)) ++ l)

/-- Resolution: the selector match of `run_deploy` for one deploy flake,
taking the flake's `(node, profile)` selector. -/
def resolve (data : DataT) :
    Option String → Option String → Except RunDeployError (List WorkItem)
  | some node_name, some profile_name =>
    match data.nodes.lookup node_name with
    | none => .error (.NodeNotFound node_name)
    | some node =>
      match node.node_settings.profiles.lookup profile_name with
      | none => .error (.ProfileNotFound profile_name)
      | some profile => .ok [WorkItem.mk node_name node profile_name profile]
  | some node_name, none =>
    match data.nodes.lookup node_name with
    | none => .error (.NodeNotFound node_name)
    | some node =>
      match resolve_node_profiles node with
      | .error e => .error e
      | .ok profiles_list =>
        .ok (profiles_list.map (fun x => WorkItem.mk node_name node x.1 x.2))
  | none, none => resolve_all_nodes data.nodes
  | none, some _ => .error .ProfileWithoutNode

/-- Helper for `first_wins`: emit each name not yet seen, remembering the
seen names in order. -/
def first_wins_go : List String → List String → List String
  | [], _seen => []
  | n :: rest, seen =>
    if seen.any (fun m => m == n) then first_wins_go rest seen
    else n :: first_wins_go rest (seen ++ [n])

/-- Specification-side description of the resolver's ordering: emit each
name at most once, the first occurrence winning. Stated from the spec's
words, to be compared with `resolve_node_profiles`. -/
def first_wins (names : List String) : List String :=
  first_wins_go names []

/-! ## Sops secret traversal (`src/cli.rs`, `run_deploy`, the key loop) -/

/-- JSON values as `serde_json::Value`; objects are association lists. -/
inductive Json where
  | str (s : String)
  | num (n : Int)
  | bool (b : Bool)
  | null
  | arr (elems : List Json)
  | obj (fields : List (String × Json))

/-- The `for i in key.split('/')` loop of `run_deploy`: walk the decrypted
JSON map along the path segments, updating the mutable `m` (on objects) and
`sudo_password` (on scalars) exactly as the source's match does. -/
def sops_walk (m : List (String × Json)) :
    List String → String → Except SopsError String
  | [], sudo_password => .ok sudo_password
  | i :: rest, sudo_password =>
    match m.lookup i with
    | some (Json.str s) => sops_walk m rest s
    | some (Json.bool b) => sops_walk m rest (toString b)
    | some (Json.num n) => sops_walk m rest (toString n)
    | some (Json.obj map) => sops_walk map rest sudo_password
    | some _ =>
      .error (.SerdeUnexpectedType "We dont handle Arrays, Bools, None, Numbers")
    | none => .error (.SopsKeyNotFound ("Did not find " ++ i ++ " in Map"))

/-- Splitting on `'/'` over the character list: the semantics of Rust's
`str::split('/')` (an empty string yields one empty segment, a trailing
separator yields a trailing empty segment). -/
def split_chars : List Char → List Char → List String
  | [], acc => [String.mk acc.reverse]
  | ch :: rest, acc =>
    if ch == '/' then String.mk acc.reverse :: split_chars rest []
    else split_chars rest (ch :: acc)

/-- Model of `key.split('/')` from the source. -/
def split_key (key : String) : List String :=
  split_chars key.data []

/-- Resolve a `/`-separated key against the decrypted root object, starting
from the empty `sudo_password` (`String::new()` in the source). -/
def sops_resolve (root : List (String × Json)) (key : String) :
    Except SopsError String :=
  sops_walk root (split_key key) ""

/-! ## Sudo wrapping and secret resolution (`src/cli.rs`, `run_deploy`,
per work item, before `parts.push`) -/

/-- The environment of the per-item defs preparation: what the interactive
prompt would return, which files exist, and what `sops -d --output-type json`
returns (already parsed; a left `SopsError` stands for decryption, utf8 or
deserialization failure). -/
structure PrepEnv where
  prompted : String
  file_exists : String → Bool
  sops_decrypt : String → Except SopsError (List (String × Json))

/-- Outcome of the per-item preparation: the result, whether the
custom-sudo warning was logged, and whether the sops subprocess was run. -/
structure PrepOutcome where
  result : Except RunDeployError DeployDefs
  warned_custom_sudo : Bool
  sops_called : Bool
deriving Repr

/-- The per-item block of `run_deploy` between `deploy_data.defs()` and
`parts.push`: wrap the sudo command unless a custom one is combined with
`interactive_sudo`/`sudo_secret` (then only warn), then resolve the sudo
password interactively or through sops. -/
def prepare_defs (ms : MergedSettings) (defs0 : DeployDefs) (env : PrepEnv) :
    PrepOutcome :=
  let custom := ms.sudo_command.isSome
    && (ms.interactive_sudo.isSome || ms.sudo_secret.isSome)
  let defs1 := if custom then defs0
    else { defs0 with
      sudo_command := some ((defs0.sudo_command.getD "sudo") ++ " -S -p \"\"") }
  if ms.interactive_sudo.getD false then
    { result := .ok { defs1 with sudo_password := some env.prompted }
      warned_custom_sudo := custom
      sops_called := false }
  else
    match ms.sudo_file, ms.sudo_secret with
    | some path, some key =>
      if !(env.file_exists path) then
        { result := .error (.Sops (.SopsFileNotFound
            ("\"" ++ path ++ "\" not found")))
          warned_custom_sudo := custom
          sops_called := false }
      else
        match env.sops_decrypt path with
        | .error e =>
          { result := .error (.Sops e)
            warned_custom_sudo := custom
            sops_called := true }
        | .ok m =>
          match sops_resolve m key with
          | .error e =>
            { result := .error (.Sops e)
              warned_custom_sudo := custom
              sops_called := true }
          | .ok pw =>
            { result := .ok { defs1 with sudo_password := some pw }
              warned_custom_sudo := custom
              sops_called := true }
    | _, _ =>
      { result := .ok defs1
        warned_custom_sudo := custom
        sops_called := false }

/-! ## Batch controller (`src/cli.rs`, `run_deploy`, the final loop) -/

/-- The rollback loop over previously-succeeded items: revoke each item
whose merged `auto_rollback` is true (default true); a failing revoke
short-circuits with `RevokeProfile`. Returns the revokes issued (in order)
and the revoke error, if any. `rok` is the oracle for whether `revoke`
succeeds on an item. -/
def revoke_loop (rok : DeployData → Bool) :
    List DeployData → List DeployData × Option RunDeployError
  | [] => ([], none)
  | d :: rest =>
    if d.merged_settings.auto_rollback.getD true then
      if rok d then
        let (tr, e) := revoke_loop rok rest
        (d :: tr, e)
      else ([d], some (.RevokeProfile d.node_name))
    else revoke_loop rok rest

/-- The `for (_, deploy_data, deploy_defs) in &parts` loop of `run_deploy`.
`dok` is the oracle for whether `deploy_profile` succeeds on an item. On a
failure the source only logs when `dry_activate` is set, then (dry or not)
rolls back all previously-succeeded items when
`rollback_succeeded && cmd_overrides.auto_rollback.unwrap_or(true)`, and
otherwise propagates `DeployProfile`. Returns the revokes issued and the
loop's result. -/
def deploy_loop (dok rok : DeployData → Bool) (dry_activate : Bool)
    (rollback_succeeded : Bool) (cmd_auto_rollback : Option Bool) :
    List DeployData → List DeployData →
    List DeployData × Except RunDeployError Unit
  | [], _succeeded => ([], .ok ())
  | d :: rest, succeeded =>
    if dok d then
      deploy_loop dok rok dry_activate rollback_succeeded cmd_auto_rollback
        rest (succeeded ++ [d])
    else
      -- the source logs "dry run, not rolling back" here when dry_activate,
      -- but does not return: control falls through to the rollback check
      if rollback_succeeded && cmd_auto_rollback.getD true then
        let (tr, e) := revoke_loop rok succeeded
        match e with
        | some err => (tr, .error err)
        | none => (tr, .error (.Rollback d.node_name))
      else
        ([], .error (.DeployProfile d.node_name))

/-- The batch controller entry point: run the items in order with an empty
`succeeded` list. -/
def run_batch (dok rok : DeployData → Bool) (dry_activate : Bool)
    (rollback_succeeded : Bool) (cmd_auto_rollback : Option Bool)
    (items : List DeployData) :
    List DeployData × Except RunDeployError Unit :=
  deploy_loop dok rok dry_activate rollback_succeeded cmd_auto_rollback items []

/-! ## Activation orchestrator (`src/deploy.rs`, `deploy_profile`) -/

/-- Error kinds of `ConfirmProfileError`. -/
inductive ConfirmProfileError where
  | SSHConfirm
  | SSHConfirmExit (code : Option Int)
deriving DecidableEq, Repr

/-- Error kinds of `DeployProfileError`. -/
inductive DeployProfileError where
  | SSHSpawnActivate
  | SSHActivate
  | SSHActivateExit (code : Option Int)
  | SSHActivateTimeout
  | SSHWait
  | SSHWaitExit (code : Option Int)
  | SSHActivatePipe
  | Confirm (e : ConfirmProfileError)
deriving DecidableEq, Repr

/-- Observable behavior of one spawned ssh child: whether the spawn
succeeds, whether a stdin handle is available, and what waiting on it
yields (`.error` for an io failure of `wait`, `.ok code` for an exit
status whose `code()` is `code`; `none` means killed by a signal). -/
structure ChildBehavior where
  spawn_ok : Bool
  stdin_present : Bool
  wait_result : Except Unit (Option Int)
deriving Repr

/-- The ssh environment of one `deploy_profile` run: the three children and
the race outcome of the `tokio::select!` between the wait child's exit and
the activate error signal. `activate_error_first` holds when the activate
task's error send is observed before the wait child exits;
`activate_finished_after_select` holds when the activate child finished
only after the select was already resolved (in which case an error send
finds its receiver dropped and panics the background task). -/
structure SshEnv where
  activate : ChildBehavior
  waiter : ChildBehavior
  confirm : ChildBehavior
  activate_error_first : Bool
  activate_finished_after_select : Bool
deriving Repr

/-- Which children were (attempted to be) spawned during a run. -/
structure DeployTrace where
  activate_spawned : Bool
  wait_spawned : Bool
  confirm_spawned : Bool
deriving DecidableEq, Repr

/-- The error the background activate task would send on the
`activateErrorSignal` channel, if any (the `maybe_err` computation of the
source). -/
def activate_error (b : ChildBehavior) : Option DeployProfileError :=
  match b.wait_result with
  | .error _ => some .SSHActivate
  | .ok (some 0) => none
  | .ok a => some (.SSHActivateExit a)

/-- Source function `confirm_profile`: spawn the confirm child, feed the
sudo password when needed, and require exit code 0. A missing stdin handle
is surfaced through `SSHConfirm` (the source maps `handle_sudo_stdin`'s io
error there). -/
def confirm_profile (needs_stdin : Bool) (b : ChildBehavior) :
    Except ConfirmProfileError Unit :=
  if !b.spawn_ok then .error .SSHConfirm
  else if needs_stdin && !b.stdin_present then .error .SSHConfirm
  else
    match b.wait_result with
    | .error _ => .error .SSHConfirm
    | .ok (some 0) => .ok ()
    | .ok a => .error (.SSHConfirmExit a)

/-- Source function `deploy_profile`, over the ssh environment. Command
strings are built by `build_activate_command` and friends and do not
influence control flow, so they are not threaded through here. The simple
branch runs when `!magic_rollback || dry_activate || boot`; the magic
branch spawns activate, spawns the waiter, races the wait exit against the
activate error signal, and on a clean wait confirms and joins the activate
task. -/
def deploy_profile (ms : MergedSettings) (dry_activate boot : Bool)
    (env : SshEnv) : DeployTrace × Except DeployProfileError Unit :=
  let magic_rollback := ms.magic_rollback.getD true
  let needs_stdin := ms.interactive_sudo.getD false || ms.sudo_secret.isSome
  if !magic_rollback || dry_activate || boot then
    if !env.activate.spawn_ok then
      (⟨false, false, false⟩, .error .SSHSpawnActivate)
    else if needs_stdin && !env.activate.stdin_present then
      (⟨true, false, false⟩, .error .SSHActivatePipe)
    else
      match env.activate.wait_result with
      | .error _ => (⟨true, false, false⟩, .error .SSHActivate)
      | .ok (some 0) => (⟨true, false, false⟩, .ok ())
      | .ok a => (⟨true, false, false⟩, .error (.SSHActivateExit a))
  else
    if !env.activate.spawn_ok then
      (⟨false, false, false⟩, .error .SSHSpawnActivate)
    else if needs_stdin && !env.activate.stdin_present then
      (⟨true, false, false⟩, .error .SSHActivatePipe)
    else if !env.waiter.spawn_ok then
      (⟨true, false, false⟩, .error .SSHWait)
    else if needs_stdin && !env.waiter.stdin_present then
      -- the source maps the waiter's stdin error to SSHActivatePipe as well
      (⟨true, true, false⟩, .error .SSHActivatePipe)
    else
      match (if env.activate_error_first then activate_error env.activate
             else none) with
      | some e => (⟨true, true, false⟩, .error e)
      | none =>
        match env.waiter.wait_result with
        | .error _ => (⟨true, true, false⟩, .error .SSHWait)
        | .ok (some 0) =>
          -- wait exited 0: confirm, then await the activate-done signal,
          -- then surface the confirm result, then join the activate task
          let c := confirm_profile needs_stdin env.confirm
          if (activate_error env.activate).isSome
              && env.activate_finished_after_select then
            -- the error send panicked the task, so the done signal never
            -- fires and recv_activated fails
            (⟨true, true, true⟩, .error .SSHActivateTimeout)
          else
            match c with
            | .error e => (⟨true, true, true⟩, .error (.Confirm e))
            | .ok _ => (⟨true, true, true⟩, .ok ())
        | .ok a => (⟨true, true, false⟩, .error (.SSHWaitExit a))

/-! ## CLI target defaulting (`src/cli.rs`, `run`) -/

/-- The `deploys` computation of `run`: `--targets` wins; otherwise the
positional target; otherwise the single default `"."`. -/
def effective_targets (target : Option String) (targets : Option (List String)) :
    List String :=
  match targets with
  | some ts => ts
  | none => [target.getD "."]

/-! ## Concrete fixtures for witnesses and counterexamples -/

def profile_a : Profile := ⟨"/nix/store/pa"⟩

def profile_b : Profile := ⟨"/nix/store/pb"⟩

def profile_c : Profile := ⟨"/nix/store/pc"⟩

/-- A node with `profilesOrder = [a, c]` and profiles `{b, c, a}` in
declaration order. -/
def example_node : NodeT :=
  ⟨⟨"host", ["a", "c"], [("b", profile_b), ("c", profile_c), ("a", profile_a)]⟩⟩

def example_data : DataT := ⟨[("n", example_node)]⟩

/-- Merged settings with every field unset. -/
def default_settings : MergedSettings :=
  ⟨none, none, none, none, none, none, none, none, none, []⟩

def item_one : DeployData := ⟨"n1", "p1", default_settings⟩

def item_two : DeployData := ⟨"n2", "p2", default_settings⟩

/-- An item whose own merged `auto_rollback` is explicitly false. -/
def item_no_rollback : DeployData :=
  ⟨"n0", "p0", { default_settings with auto_rollback := some false }⟩

def base_defs : DeployDefs := ⟨"root", "root", none, none⟩

/-- A preparation environment in which no file exists; the decryption
oracle is never consulted. -/
def no_file_env : PrepEnv := ⟨"", fun _ => false, fun _ => .error .SerdeDeserialize⟩

/-- Merged settings with `sudo_file` set but `sudo_secret` unset. -/
def file_only_settings : MergedSettings :=
  ⟨none, none, some "secrets.yaml", none, none, none, none, none, none, []⟩

/-- Merged settings with both `sudo_file` and `sudo_secret` set. -/
def file_and_secret_settings : MergedSettings :=
  ⟨none, none, some "secrets.yaml", some "a/b", none, none, none, none, none, []⟩

/-- An ssh environment in which the activate child exits 1 and its error
signal is observed before the wait child exits. -/
def activate_fails_env : SshEnv :=
  ⟨⟨true, true, .ok (some 1)⟩, ⟨true, true, .ok (some 0)⟩,
   ⟨true, true, .ok (some 0)⟩, true, false⟩

/-- Merged settings with a custom sudo command combined with
`interactive_sudo`. -/
def custom_sudo_settings : MergedSettings :=
  ⟨some "doas", some true, none, none, none, none, none, none, none, []⟩

/-- Defs whose derived sudo carries the custom command. -/
def custom_sudo_defs : DeployDefs := ⟨"root", "root", some "doas -u root", none⟩

/-! # Theorems -/

/-! ## Helper lemmas -/

/-- Unfolding lemma: on a successful revoke oracle, the rollback loop
revokes exactly the items whose merged `auto_rollback` defaults to true. -/
theorem revoke_loop_all_ok (rok : DeployData → Bool)
    (l : List DeployData) (h : ∀ i ∈ l, rok i = true) :
    revoke_loop rok l
      = (l.filter (fun i => i.merged_settings.auto_rollback.getD true), none) := by
  induction l with
  | nil => rfl
  | cons d rest ih =>
    have hd : rok d = true := h d (List.mem_cons_self d rest)
    have hrest : ∀ i ∈ rest, rok i = true := fun i hi => h i (List.mem_cons_of_mem d hi)
    by_cases hrb : d.merged_settings.auto_rollback.getD true = true
    · simp [revoke_loop, hrb, hd, ih hrest, List.filter_cons]
    · simp only [Bool.not_eq_true] at hrb
      simp [revoke_loop, hrb, ih hrest, List.filter_cons]

/-- Unfolding lemma: a prefix of items on which `deploy_profile` succeeds
is appended to the `succeeded` accumulator. -/
theorem deploy_loop_ok_head (dok rok : DeployData → Bool)
    (dry rs : Bool) (cao : Option Bool) (pre rest acc : List DeployData)
    (h : ∀ i ∈ pre, dok i = true) :
    deploy_loop dok rok dry rs cao (pre ++ rest) acc
      = deploy_loop dok rok dry rs cao rest (acc ++ pre) := by
  induction pre generalizing acc with
  | nil => simp
  | cons d pre ih =>
    have hd : dok d = true := h d (List.mem_cons_self d pre)
    have hpre : ∀ i ∈ pre, dok i = true := fun i hi => h i (List.mem_cons_of_mem d hi)
    simp only [List.cons_append, deploy_loop, hd, if_true, List.append_eq]
    rw [ih (acc ++ [d]) hpre, List.append_assoc]
    rfl

/-! ## Claim theorems -/

/-- Claim C6: `build_activate_command` on the golden-test inputs produces
exactly the golden command string, flags in that order, sudo prepended
last. -/
theorem activate_command_golden :
    build_activate_command
      { sudo_command := some "sudo -u test"
        profile_info := .profilePath "/blah/profiles/test"
        closure := "/nix/store/blah/etc"
        auto_rollback := true
        temp_path := "/tmp"
        confirm_timeout := 30
        magic_rollback := true
        debug_logs := true
        log_dir := some "/tmp/something.txt"
        dry_activate := false
        boot := false }
    = "sudo -u test /nix/store/blah/etc/activate-rs --debug-logs --log-dir /tmp/something.txt activate '/nix/store/blah/etc' --profile-path '/blah/profiles/test' --temp-path '/tmp' --confirm-timeout 30 --magic-rollback --auto-rollback" := by
  rfl

/-- Claim C9: a selector carrying a profile but no node is rejected at
resolution with `ProfileWithoutNode`, for every descriptor; no work item is
produced, so nothing reaches the orchestrator. -/
theorem profile_without_node_rejected (data : DataT) (p : String) :
    resolve data none (some p) = .error .ProfileWithoutNode := rfl

/-- Claim C10: with neither the positional target nor `--targets` given,
the run proceeds with the single default target `"."`. -/
theorem default_target_dot : effective_targets none none = ["."] := rfl

/-- Claim C1 (divergence witness): with `dry_activate = true`, a succeeded
first item and a failing second item, the batch controller still issues a
revoke for the first item and returns `Rollback` instead of propagating the
deploy error — contradicting the spec and the source's own
"dry run, not rolling back" log line. -/
theorem dry_activate_still_revokes :
    run_batch (fun d => d.node_name == "n1") (fun _ => true) true true none
      [item_one, item_two]
    = ([item_one], .error (.Rollback "n2")) := rfl

/-- Claim C8 (counterexample): `sudo_file` set to a non-existent file with
`sudo_secret` unset does not fail; preparation succeeds with a wrapped sudo
command and no password. -/
theorem sudo_file_without_secret_no_error :
    file_only_settings.sudo_file = some "secrets.yaml"
    ∧ no_file_env.file_exists "secrets.yaml" = false
    ∧ (prepare_defs file_only_settings base_defs no_file_env).result
        = .ok ⟨"root", "root", some "sudo -S -p \"\"", none⟩ :=
  ⟨rfl, rfl, rfl⟩

/-- Claim C4 (counterexample): the traversal does not end at a scalar
child. For JSON `{"a": "pw"}` and key `a/x` the claim predicts the
resolved password `"pw"`; the code keeps walking and fails with
`SopsKeyNotFound` on `x`. -/
theorem sops_scalar_then_missing_key_errors :
    sops_resolve [("a", Json.str "pw")] "a/x"
      = .error (.SopsKeyNotFound "Did not find x in Map")
    ∧ sops_resolve [("a", Json.str "pw")] "a/x" ≠ .ok "pw" :=
  ⟨rfl, fun h => Except.noConfusion h⟩

/-- Claim C4 (amended): the three concrete cases hold, and at each segment
an object child is descended into, an absent child fails with
`SopsKeyNotFound`, and a scalar child is stringified and stored as the
candidate password while traversal continues over the remaining segments
against the unchanged current map. -/
theorem sops_walk_continues_after_scalar :
    sops_resolve [("a", Json.obj [("b", Json.obj [("c", Json.str "pw")])])] "a/b/c"
      = .ok "pw"
    ∧ sops_resolve [("a", Json.obj [("b", Json.obj [("c", Json.str "pw")])])] "a/x"
      = .error (.SopsKeyNotFound "Did not find x in Map")
    ∧ sops_resolve [("a", Json.arr [Json.num 1, Json.num 2])] "a"
      = .error (.SerdeUnexpectedType "We dont handle Arrays, Bools, None, Numbers")
    ∧ (∀ m s v rest pw, m.lookup s = some (Json.str v) →
        sops_walk m (s :: rest) pw = sops_walk m rest v)
    ∧ (∀ m s fields rest pw, m.lookup s = some (Json.obj fields) →
        sops_walk m (s :: rest) pw = sops_walk fields rest pw)
    ∧ (∀ m s rest pw, m.lookup s = none →
        sops_walk m (s :: rest) pw
          = .error (.SopsKeyNotFound ("Did not find " ++ s ++ " in Map"))) := by
  refine ⟨rfl, rfl, rfl, ?_, ?_, ?_⟩
  · intro m s v rest pw h
    simp [sops_walk, h]
  · intro m s fields rest pw h
    simp [sops_walk, h]
  · intro m s rest pw h
    simp [sops_walk, h]

/-- Witness for C4: the scalar-continuation rule applied at
`{"a": "pw"}`, segment `a`, remaining path `[x]`. -/
theorem sops_walk_continues_after_scalar_witness :
    sops_walk [("a", Json.str "pw")] ["a", "x"] ""
      = sops_walk [("a", Json.str "pw")] ["x"] "pw" :=
  sops_walk_continues_after_scalar.2.2.2.1 [("a", Json.str "pw")] "a" "pw" ["x"] "" rfl

/-- Claim C2: when item `d` fails (non-dry) after the prefix `pre`
succeeded, with `rollback_succeeded = true` and the CLI `auto_rollback`
override not explicitly false, the controller revokes exactly the
previously-succeeded items whose own merged `auto_rollback` defaults to
true (in order, and nothing else — in particular not `d`), and returns
`Rollback` tagged with `d`'s node name. -/
theorem batch_failure_rolls_back_succeeded
    (dok rok : DeployData → Bool) (pre post : List DeployData)
    (d : DeployData) (cao : Option Bool)
    (hpre : ∀ i ∈ pre, dok i = true) (hd : dok d = false)
    (hrok : ∀ i, rok i = true) (hcao : cao ≠ some false) :
    run_batch dok rok false true cao (pre ++ d :: post)
      = (pre.filter (fun i => i.merged_settings.auto_rollback.getD true),
         .error (.Rollback d.node_name)) := by
  have hcao' : cao.getD true = true := by
    cases cao with
    | none => rfl
    | some b =>
      cases b with
      | false => exact absurd rfl hcao
      | true => rfl
  unfold run_batch
  rw [deploy_loop_ok_head dok rok false true cao pre (d :: post) [] hpre]
  simp only [List.nil_append, deploy_loop, hd, hcao', Bool.true_and, if_true,
    Bool.false_eq_true, if_false]
  rw [revoke_loop_all_ok rok pre (fun i _ => hrok i)]

/-- Witness for C2: two succeeded items (the second with
`auto_rollback = false`), then a failing item on node `n2`: only the first
item is revoked and the error is `Rollback "n2"`. -/
theorem batch_failure_rolls_back_succeeded_witness :
    run_batch (fun d => d.node_name != "n2") (fun _ => true) false true none
      ([item_one, item_no_rollback] ++ item_two :: [])
      = ([item_one], .error (.Rollback "n2")) :=
  batch_failure_rolls_back_succeeded (fun d => d.node_name != "n2") (fun _ => true)
    [item_one, item_no_rollback] [] item_two none
    (by decide) (by decide) (fun _ => rfl) (by decide)

/-- The error the activate task signals when its child exited with a
non-zero (or signal-killed) status. -/
theorem activate_error_of_ne_zero (b : ChildBehavior) (c : Option Int)
    (h1 : b.wait_result = .ok c) (h2 : c ≠ some 0) :
    activate_error b = some (.SSHActivateExit c) := by
  unfold activate_error
  rw [h1]
  rcases c with _ | n
  · rfl
  · rcases n with m | m
    · cases m with
      | zero => exact absurd rfl h2
      | succ k => rfl
    · rfl

/-- Claim C3: in the magic-rollback path (magic true, not dry, not boot),
when both spawns succeed and the activate child exits with a non-zero code
observed before the wait child completes, `deploy_profile` returns
`SSHActivateExit` with that code and the confirm child is never spawned. -/
theorem magic_activate_error_skips_confirm
    (ms : MergedSettings) (env : SshEnv) (c : Option Int)
    (hmagic : ms.magic_rollback.getD true = true)
    (haspawn : env.activate.spawn_ok = true)
    (hwspawn : env.waiter.spawn_ok = true)
    (hastdin : env.activate.stdin_present = true)
    (hwstdin : env.waiter.stdin_present = true)
    (hcode : env.activate.wait_result = .ok c)
    (hnz : c ≠ some 0)
    (hfirst : env.activate_error_first = true) :
    deploy_profile ms false false env
      = (⟨true, true, false⟩, .error (.SSHActivateExit c)) := by
  have herr := activate_error_of_ne_zero env.activate c hcode hnz
  simp [deploy_profile, hmagic, haspawn, hwspawn, hastdin, hwstdin, hfirst, herr]

/-- Witness for C3: concrete environment where activate exits 1 first;
the run surfaces `SSHActivateExit (some 1)` with `confirm_spawned = false`. -/
theorem magic_activate_error_skips_confirm_witness :
    deploy_profile default_settings false false activate_fails_env
      = (⟨true, true, false⟩, .error (.SSHActivateExit (some 1))) :=
  magic_activate_error_skips_confirm default_settings activate_fails_env (some 1)
    rfl rfl rfl rfl rfl rfl (by decide) rfl

/-- Membership test over mapped-out names agrees with the source's
`profiles_list.iter().any(|(n, _)| n == profile_name)` test. -/
theorem any_map_fst (acc : List (String × Profile)) (n : String) :
    ((acc.map (fun p => p.1)).any fun m => m == n)
      = acc.any fun p => p.1 == n := by
  induction acc with
  | nil => rfl
  | cons p rest ih => simp [List.any_cons, ih]

/-- The emitted names of the resolver's per-node loop are the accumulator's
names followed by the first-occurrence-wins traversal of the remaining
candidates. -/
theorem profiles_list_loop_names (P : List (String × Profile)) :
    ∀ (names : List String) (acc l : List (String × Profile)),
    profiles_list_loop P names acc = .ok l →
    l.map (fun p => p.1)
      = acc.map (fun p => p.1) ++ first_wins_go names (acc.map (fun p => p.1)) := by
  intro names
  induction names with
  | nil =>
    intro acc l h
    simp only [profiles_list_loop, Except.ok.injEq] at h
    subst h
    simp [first_wins_go]
  | cons n rest ih =>
    intro acc l h
    unfold profiles_list_loop at h
    cases hlk : P.lookup n with
    | none => rw [hlk] at h; exact absurd h (fun hh => Except.noConfusion hh)
    | some profile =>
      rw [hlk] at h
      simp only [] at h
      by_cases hmem : acc.any (fun p => p.1 == n) = true
      · rw [if_pos hmem] at h
        rw [ih acc l h]
        have hm : (acc.map (fun p => p.1)).any (fun m => m == n) = true := by
          rw [any_map_fst]
          exact hmem
        simp [first_wins_go, hm]
      · rw [if_neg hmem] at h
        have hm : (acc.map (fun p => p.1)).any (fun m => m == n) = false := by
          rw [any_map_fst]
          simp only [Bool.not_eq_true] at hmem
          exact hmem
        rw [ih (acc ++ [(n, profile)]) l h]
        simp [first_wins_go, hm, List.append_assoc]

/-- Claim C5: for a `(node, *)` selector the resolver emits
`profilesOrder ++ profiles.keys` with each profile name at most once, the
first occurrence winning; in particular with `profilesOrder = [a, c]` and
profiles `{b, c, a}` the work items are `[a, c, b]`. -/
theorem resolver_orders_profiles_first_wins :
    (∀ (data : DataT) (n : String) (node : NodeT) (l : List WorkItem),
      data.nodes.lookup n = some node →
      resolve data (some n) none = .ok l →
      l.map (fun w => w.profile_name)
        = first_wins (node.node_settings.profiles_order
            ++ node.node_settings.profiles.map (fun p => p.1)))
    ∧ resolve example_data (some "n") none
        = .ok [⟨"n", example_node, "a", profile_a⟩,
               ⟨"n", example_node, "c", profile_c⟩,
               ⟨"n", example_node, "b", profile_b⟩] := by
  constructor
  · intro data n node l hnode hres
    unfold resolve at hres
    simp only [] at hres
    rw [hnode] at hres
    simp only [] at hres
    cases hpl : resolve_node_profiles node with
    | error e => rw [hpl] at hres; exact absurd hres (fun hh => Except.noConfusion hh)
    | ok pl =>
      rw [hpl] at hres
      injection hres with h
      subst h
      have hnames := profiles_list_loop_names node.node_settings.profiles
        (node.node_settings.profiles_order
          ++ node.node_settings.profiles.map (fun p => p.1)) [] pl hpl
      simpa [List.map_map, first_wins] using hnames
  · rfl

/-- Witness for C5: the general ordering statement applied at the example
node (order `[a, c]`, profiles `{b, c, a}`). -/
theorem resolver_orders_profiles_first_wins_witness :
    ([⟨"n", example_node, "a", profile_a⟩, ⟨"n", example_node, "c", profile_c⟩,
      ⟨"n", example_node, "b", profile_b⟩] : List WorkItem).map
        (fun w => w.profile_name)
      = first_wins (example_node.node_settings.profiles_order
          ++ example_node.node_settings.profiles.map (fun p => p.1)) :=
  resolver_orders_profiles_first_wins.1 example_data "n" example_node
    [⟨"n", example_node, "a", profile_a⟩, ⟨"n", example_node, "c", profile_c⟩,
     ⟨"n", example_node, "b", profile_b⟩] rfl rfl

/-- The custom-sudo warning flag equals the source's condition
`sudo.is_some && (interactive_sudo.is_some || sudo_secret.is_some)`
in every branch of the preparation. -/
theorem prepare_defs_warned (ms : MergedSettings) (defs0 : DeployDefs)
    (env : PrepEnv) :
    (prepare_defs ms defs0 env).warned_custom_sudo
      = (ms.sudo_command.isSome
          && (ms.interactive_sudo.isSome || ms.sudo_secret.isSome)) := by
  unfold prepare_defs
  repeat' split
  all_goals rfl

/-- On every successful preparation, the effective sudo command is the
original one when the custom-sudo warning fired, and the `-S -p ""`
wrapped one otherwise. -/
theorem prepare_defs_ok_sudo (ms : MergedSettings) (defs0 : DeployDefs)
    (env : PrepEnv) (d : DeployDefs)
    (h : (prepare_defs ms defs0 env).result = .ok d) :
    d.sudo_command
      = if (ms.sudo_command.isSome
            && (ms.interactive_sudo.isSome || ms.sudo_secret.isSome))
        then defs0.sudo_command
        else some ((defs0.sudo_command.getD "sudo") ++ " -S -p \"\"") := by
  unfold prepare_defs at h
  by_cases hc : (ms.sudo_command.isSome
      && (ms.interactive_sudo.isSome || ms.sudo_secret.isSome)) = true
  · rw [if_pos hc]
    simp only [hc, if_true] at h
    repeat' split at h
    all_goals first
      | exact absurd h (fun hh => Except.noConfusion hh)
      | (injection h with h; subst h; rfl)
  · rw [if_neg hc]
    simp only [Bool.not_eq_true] at hc
    simp only [hc, Bool.false_eq_true, if_false] at h
    repeat' split at h
    all_goals first
      | exact absurd h (fun hh => Except.noConfusion hh)
      | (injection h with h; subst h; rfl)

/-- Claim C7: when a custom sudo command is supplied together with
`interactive_sudo` or `sudo_secret`, the warning is emitted and the custom
command is used verbatim; in every other case the effective sudo prefix
becomes `<base> -S -p ""` with `<base>` the configured command or the
default `sudo`. -/
theorem custom_sudo_verbatim_else_wrapped
    (ms : MergedSettings) (defs0 : DeployDefs) (env : PrepEnv) :
    ((ms.sudo_command.isSome
        && (ms.interactive_sudo.isSome || ms.sudo_secret.isSome)) = true →
      (prepare_defs ms defs0 env).warned_custom_sudo = true
      ∧ ∀ d, (prepare_defs ms defs0 env).result = .ok d →
          d.sudo_command = defs0.sudo_command)
    ∧ ((ms.sudo_command.isSome
        && (ms.interactive_sudo.isSome || ms.sudo_secret.isSome)) = false →
      (prepare_defs ms defs0 env).warned_custom_sudo = false
      ∧ ∀ d, (prepare_defs ms defs0 env).result = .ok d →
          d.sudo_command
            = some ((defs0.sudo_command.getD "sudo") ++ " -S -p \"\"")) := by
  constructor
  · intro hc
    refine ⟨by rw [prepare_defs_warned, hc], fun d hd => ?_⟩
    have := prepare_defs_ok_sudo ms defs0 env d hd
    rw [hc] at this
    simpa using this
  · intro hc
    refine ⟨by rw [prepare_defs_warned, hc], fun d hd => ?_⟩
    have := prepare_defs_ok_sudo ms defs0 env d hd
    rw [hc] at this
    simpa using this

/-- Witness for C7: custom command `doas` with `interactive_sudo` set warns
and keeps the derived sudo verbatim; the all-default settings do not warn
and wrap the default into `sudo -S -p ""`. -/
theorem custom_sudo_verbatim_else_wrapped_witness :
    ((prepare_defs custom_sudo_settings custom_sudo_defs no_file_env).warned_custom_sudo
        = true
      ∧ (⟨"root", "root", some "doas -u root", some ""⟩ : DeployDefs).sudo_command
        = custom_sudo_defs.sudo_command)
    ∧ ((prepare_defs default_settings base_defs no_file_env).warned_custom_sudo = false
      ∧ (⟨"root", "root", some "sudo -S -p \"\"", none⟩ : DeployDefs).sudo_command
        = some ((base_defs.sudo_command.getD "sudo") ++ " -S -p \"\"")) :=
  ⟨⟨((custom_sudo_verbatim_else_wrapped custom_sudo_settings custom_sudo_defs
        no_file_env).1 rfl).1,
    ((custom_sudo_verbatim_else_wrapped custom_sudo_settings custom_sudo_defs
        no_file_env).1 rfl).2 ⟨"root", "root", some "doas -u root", some ""⟩ rfl⟩,
   ⟨((custom_sudo_verbatim_else_wrapped default_settings base_defs
        no_file_env).2 rfl).1,
    ((custom_sudo_verbatim_else_wrapped default_settings base_defs
        no_file_env).2 rfl).2 ⟨"root", "root", some "sudo -S -p \"\"", none⟩ rfl⟩⟩

/-- Claim C8 (amended): when both `sudo_file` and `sudo_secret` are set,
`interactive_sudo` is not enabled, and the file does not exist, preparation
fails with `SopsFileNotFound` and the decrypter is never invoked. -/
theorem sudo_file_missing_with_secret_fails
    (ms : MergedSettings) (defs0 : DeployDefs) (env : PrepEnv)
    (path key : String)
    (hfile : ms.sudo_file = some path) (hsecret : ms.sudo_secret = some key)
    (hint : ms.interactive_sudo.getD false = false)
    (hmiss : env.file_exists path = false) :
    (prepare_defs ms defs0 env).result
      = .error (.Sops (.SopsFileNotFound ("\"" ++ path ++ "\" not found")))
    ∧ (prepare_defs ms defs0 env).sops_called = false := by
  constructor <;>
    simp [prepare_defs, hint, hfile, hsecret, hmiss]

/-- Witness for C8: settings with file `secrets.yaml` and secret `a/b` in
an environment where the file is missing. -/
theorem sudo_file_missing_with_secret_fails_witness :
    (prepare_defs file_and_secret_settings base_defs no_file_env).result
      = .error (.Sops (.SopsFileNotFound ("\"" ++ "secrets.yaml" ++ "\" not found")))
    ∧ (prepare_defs file_and_secret_settings base_defs no_file_env).sops_called
      = false :=
  sudo_file_missing_with_secret_fails file_and_secret_settings base_defs no_file_env
    "secrets.yaml" "a/b" rfl rfl rfl rfl

end DeployRs
